import Mathlib

/-!
Shallow embedding of `sonar_git_mcp.py`, a small automation tool that
watches a GitHub branch for new commits, checks CI status, fetches
SonarQube issues, applies formatting fixes, commits, pushes and opens a
pull request.

Modelling choices:
* Every external effect (GitHub API calls, the SonarQube HTTP request,
  subprocess invocations, the marker-file write) is a field of an
  environment record `Env`; a field of type `Except String α` models a
  Python call that either returns a value or raises an exception whose
  `str(e)` is the error string.
* JSON-like return values of the tools are represented by `JValue`;
  a Python dict literal becomes `JValue.obj` with its key order kept.
* Each operation returns its value together with a trace of `Event`s
  recording which external actions were performed (and with which
  arguments), so that claims about steps being skipped or about the
  branch names used can be stated.
* `watch_github_commit` additionally returns the marker-file state after
  the call (the file `last_commit.txt`, modelled as `Option String`,
  `none` = absent).
-/

namespace SonarGitMcp

/-- JSON-like values, the shape of the dictionaries / strings the tools
return.  Key order of Python dict literals is preserved. -/
inductive JValue where
  | null : JValue
  | str : String → JValue
  | num : Int → JValue
  | arr : List JValue → JValue
  | obj : List (String × JValue) → JValue

/-- A SonarQube issue as delivered by the issues-search endpoint; only
the five fields the code projects are modelled, each optional since the
code reads them with `dict.get` (absent key ⇒ `None`). -/
structure RawIssue where
  message : Option String
  severity : Option String
  type : Option String
  component : Option String
  line : Option Nat

/-- A GitHub Actions workflow run; the code only reads its
`conclusion`, which is `None` while the run is in progress. -/
structure WorkflowRun where
  conclusion : Option String
  deriving DecidableEq

/-- External actions an operation can perform, with the arguments that
matter for the claims. -/
inductive Event where
  | branchLookup (branch : String)
  | workflowLookup (branch : String)
  | writeMarker (sha : String)
  | sonarFetch
  | runBlack
  | runIsort
  | gitCheckout (branch : String)
  | gitAdd
  | gitCommit
  | gitPush (branch : String)
  | createPR (head base : String)
  deriving DecidableEq

/-- The external world: each field models one fallible external call of
the Python code (`Except.error e` = the call raises an exception with
`str(e) = e`), plus the current content of the marker file. -/
structure Env where
  /-- `Github(GITHUB_TOKEN)` / `g.get_repo(GITHUB_REPO)`. -/
  githubRepo : Except String Unit
  /-- `repo.get_branch(branch).commit.sha`. -/
  branchSha : String → Except String String
  /-- `repo.get_workflow_runs(branch=branch)` as a list, newest first. -/
  workflowRuns : String → Except String (List WorkflowRun)
  /-- Content of `last_commit.txt`; `none` = file absent. -/
  marker : Option String
  /-- Opening `last_commit.txt` for writing and writing to it. -/
  writeMarker : Except String Unit
  /-- The whole SonarQube request (`requests.get`, `raise_for_status`,
  `.json().get("issues", [])`). -/
  sonarResponse : Except String (List RawIssue)
  /-- `subprocess.run(["black", "."], cwd=CLONE_DIR, check=True)`. -/
  blackResult : Except String Unit
  /-- `subprocess.run(["isort", "."], cwd=CLONE_DIR, check=True)`. -/
  isortResult : Except String Unit
  /-- `git checkout -b NEW_BRANCH`. -/
  gitCheckout : Except String Unit
  /-- `git add .`. -/
  gitAdd : Except String Unit
  /-- `git commit -m "fix: auto-fix based on SonarQube issues"`. -/
  gitCommit : Except String Unit
  /-- `git push --set-upstream origin NEW_BRANCH`. -/
  gitPush : Except String Unit
  /-- `repo.create_pull(title=..., body=..., head=..., base=...)`,
  returning `pr.html_url`. -/
  createPull : String → String → String → String → Except String String

/-- `NEW_BRANCH = "auto-fix-sonar-issues"` (module-level constant). -/
def NEW_BRANCH : String := "auto-fix-sonar-issues"

/-- `CLONE_DIR = "cloned_repo"` (module-level constant). -/
def CLONE_DIR : String := "cloned_repo"

/-- An `Option String` rendered as a JSON value (`None` ⇒ `null`). -/
def jOptStr : Option String → JValue
  | none => JValue.null
  | some s => JValue.str s

/-- An `Option Nat` rendered as a JSON value (`None` ⇒ `null`). -/
def jOptNat : Option Nat → JValue
  | none => JValue.null
  | some n => JValue.num n

/-- Python's `str.strip()`: remove whitespace from both ends of the
string (used on the marker-file content as `f.read().strip()`). -/
def pyStrip (s : String) : String :=
  String.mk
    (((s.data.dropWhile Char.isWhitespace).reverse.dropWhile
        Char.isWhitespace).reverse)

/-- The catch-all result `{"error": str(e)}`. -/
def mkError (e : String) : JValue := JValue.obj [("error", JValue.str e)]

/-- Does the value have the shape of a dictionary with an `error` key? -/
def hasErrorField : JValue → Bool
  | JValue.obj l => l.any (fun p => p.fst == "error")
  | _ => false

/-- The keys of a JSON object, in order (`[]` for non-objects). -/
def jKeys : JValue → List String
  | JValue.obj l => l.map Prod.fst
  | _ => []

/-- Field lookup in a JSON object. -/
def getField (v : JValue) (k : String) : Option JValue :=
  match v with
  | JValue.obj l => (l.find? (fun p => p.fst == k)).map Prod.snd
  | _ => none

/-- The projection of a raw issue performed inside `get_sonar_issues`:
`{"message": ..., "severity": ..., "type": ..., "component": ...,
"line": ...}`. -/
def projectIssue (i : RawIssue) : JValue :=
  JValue.obj
    [("message", jOptStr i.message),
     ("severity", jOptStr i.severity),
     ("type", jOptStr i.type),
     ("component", jOptStr i.component),
     ("line", jOptNat i.line)]

/-- `get_sonar_issues`: fetch unresolved SonarQube issues; any exception
is caught and turned into `{"error": str(e)}`. -/
def get_sonar_issues (env : Env) : JValue × List Event :=
  match env.sonarResponse with
  | Except.error e => (mkError e, [Event.sonarFetch])
  | Except.ok issues =>
    if issues.isEmpty then
      (JValue.obj
        [("status", JValue.str "No issues found"),
         ("total", JValue.num 0),
         ("issues", JValue.arr [])],
       [Event.sonarFetch])
    else
      (JValue.obj
        [("status", JValue.str "Issues found"),
         ("total", JValue.num issues.length),
         ("issues", JValue.arr ((issues.take 10).map projectIssue))],
       [Event.sonarFetch])

/-- The error string of `apply_code_fixes`:
`f" Failed to apply code fixes: {str(e)}"`. -/
def fixFailMsg (e : String) : String := " Failed to apply code fixes: " ++ e

/-- The error string of `commit_and_push`:
`f" Git commit/push failed: {str(e)}"`. -/
def gitFailMsg (e : String) : String := " Git commit/push failed: " ++ e

/-- `apply_code_fixes`: run `black` then `isort`; a raised exception
(e.g. a non-zero exit with `check=True`) is caught and rendered as a
plain string. -/
def apply_code_fixes (env : Env) : JValue × List Event :=
  match env.blackResult with
  | Except.error e => (JValue.str (fixFailMsg e), [Event.runBlack])
  | Except.ok _ =>
    match env.isortResult with
    | Except.error e => (JValue.str (fixFailMsg e), [Event.runBlack, Event.runIsort])
    | Except.ok _ =>
      (JValue.str " Code formatted using black and isort.",
       [Event.runBlack, Event.runIsort])

/-- `commit_and_push`: checkout `NEW_BRANCH`, add, commit, push; a
raised exception is caught and rendered as a plain string. -/
def commit_and_push (env : Env) : JValue × List Event :=
  match env.gitCheckout with
  | Except.error e => (JValue.str (gitFailMsg e), [Event.gitCheckout NEW_BRANCH])
  | Except.ok _ =>
    match env.gitAdd with
    | Except.error e =>
      (JValue.str (gitFailMsg e), [Event.gitCheckout NEW_BRANCH, Event.gitAdd])
    | Except.ok _ =>
      match env.gitCommit with
      | Except.error e =>
        (JValue.str (gitFailMsg e),
         [Event.gitCheckout NEW_BRANCH, Event.gitAdd, Event.gitCommit])
      | Except.ok _ =>
        match env.gitPush with
        | Except.error e =>
          (JValue.str (gitFailMsg e),
           [Event.gitCheckout NEW_BRANCH, Event.gitAdd, Event.gitCommit,
            Event.gitPush NEW_BRANCH])
        | Except.ok _ =>
          (JValue.str (" Changes pushed to branch `" ++ NEW_BRANCH ++ "`."),
           [Event.gitCheckout NEW_BRANCH, Event.gitAdd, Event.gitCommit,
            Event.gitPush NEW_BRANCH])

/-- Title of the pull request created by `raise_pr`. -/
def prTitle : String := "Auto-fix: SonarQube violations"

/-- Body of the pull request created by `raise_pr`. -/
def prBody : String :=
  "This PR auto-fixes code formatting issues based on SonarQube results."

/-- `raise_pr`: open a pull request from `NEW_BRANCH` into `main`; any
exception is caught and turned into `{"error": str(e)}`. -/
def raise_pr (env : Env) : JValue × List Event :=
  match env.githubRepo with
  | Except.error e => (mkError e, [])
  | Except.ok _ =>
    match env.createPull prTitle prBody NEW_BRANCH "main" with
    | Except.error e => (mkError e, [Event.createPR NEW_BRANCH "main"])
    | Except.ok url =>
      (JValue.obj
        [("url", JValue.str url),
         ("status", JValue.str " PR created successfully")],
       [Event.createPR NEW_BRANCH "main"])

/-- `full_auto_fix_pipeline`: run the four steps unconditionally, in
order, collecting each result under its key. -/
def full_auto_fix_pipeline (env : Env) : JValue × List Event :=
  let s1 := get_sonar_issues env
  let s2 := apply_code_fixes env
  let s3 := commit_and_push env
  let s4 := raise_pr env
  (JValue.obj
    [("get_sonar_issues", s1.fst),
     ("apply_fixes", s2.fst),
     ("commit_push", s3.fst),
     ("create_pr", s4.fst)],
   s1.snd ++ s2.snd ++ s3.snd ++ s4.snd)

/-- The status string of the no-new-commit result; note the leading
space in the source literal `" No new commits"`. -/
def noNewCommitsMsg : String := " No new commits"

/-- `watch_github_commit`: detect a new commit on `branch`, gate on the
latest workflow run being a success, persist the new SHA to
`last_commit.txt`, then run the pipeline.  Returns the result value,
the event trace, and the marker-file content after the call. -/
def watch_github_commit (env : Env) (branch : String) :
    JValue × List Event × Option String :=
  match env.githubRepo with
  | Except.error e => (mkError e, [], env.marker)
  | Except.ok _ =>
    match env.branchSha branch with
    | Except.error e => (mkError e, [Event.branchLookup branch], env.marker)
    | Except.ok latest_commit =>
      let previous_sha : Option String := env.marker.map pyStrip
      if some latest_commit = previous_sha then
        (JValue.obj
          [("status", JValue.str noNewCommitsMsg),
           ("latest_commit", JValue.str latest_commit)],
         [Event.branchLookup branch], env.marker)
      else
        match env.workflowRuns branch with
        | Except.error e =>
          (mkError e, [Event.branchLookup branch, Event.workflowLookup branch],
           env.marker)
        | Except.ok runs =>
          match runs.head? with
          | none =>
            (JValue.obj [("status", JValue.str " No recent workflow run found")],
             [Event.branchLookup branch, Event.workflowLookup branch], env.marker)
          | some latest_run =>
            if latest_run.conclusion ≠ some "success" then
              (JValue.obj
                [("status", JValue.str " Build failed or still running"),
                 ("build_status", jOptStr latest_run.conclusion)],
               [Event.branchLookup branch, Event.workflowLookup branch],
               env.marker)
            else
              match env.writeMarker with
              | Except.error e =>
                (mkError e,
                 [Event.branchLookup branch, Event.workflowLookup branch],
                 env.marker)
              | Except.ok _ =>
                let r := full_auto_fix_pipeline env
                (JValue.obj
                  [("status", JValue.str "Build succeeded and commit processed"),
                   ("commit", JValue.str latest_commit),
                   ("pipeline_result", r.fst)],
                 [Event.branchLookup branch, Event.workflowLookup branch,
                  Event.writeMarker latest_commit] ++ r.snd,
                 some latest_commit)

/-- A fully successful external world used as the base of the concrete
test environments: branch head `"abc123"`, marker file absent, latest
workflow run a success, empty issue list, every external call succeeds. -/
def baseEnv : Env where
  githubRepo := Except.ok ()
  branchSha := fun _ => Except.ok "abc123"
  workflowRuns := fun _ => Except.ok [{ conclusion := some "success" }]
  marker := none
  writeMarker := Except.ok ()
  sonarResponse := Except.ok []
  blackResult := Except.ok ()
  isortResult := Except.ok ()
  gitCheckout := Except.ok ()
  gitAdd := Except.ok ()
  gitCommit := Except.ok ()
  gitPush := Except.ok ()
  createPull := fun _ _ _ _ => Except.ok "https://example.com/pr/1"

/-- A sample raw issue, numbered. -/
def mkIssue (n : Nat) : RawIssue :=
  { message := some ("issue " ++ toString n), severity := some "MAJOR",
    type := some "CODE_SMELL", component := some "proj:file.py",
    line := some n }

/-- Fifteen sample issues. -/
def issues15 : List RawIssue := (List.range 15).map mkIssue

/-- World in which the SonarQube server reports fifteen issues. -/
def envIssues15 : Env := { baseEnv with sonarResponse := Except.ok issues15 }

/-- World in which running `black` raises an exception `"boom"`. -/
def envBlackFails : Env := { baseEnv with blackResult := Except.error "boom" }

/-- World in which connecting to GitHub raises an exception `"boom"`. -/
def envRepoErr : Env := { baseEnv with githubRepo := Except.error "boom" }

/-- World in which the marker file already holds the branch head. -/
def envMarkerMatch : Env := { baseEnv with marker := some "abc123" }

/-- World in which the latest workflow run concluded `"failure"`. -/
def envBuildFailed : Env :=
  { baseEnv with workflowRuns := fun _ => Except.ok [{ conclusion := some "failure" }] }

/-- Helper: the exact value, trace and marker state produced by
`watch_github_commit` when a new commit is seen, the latest workflow run
succeeded, and the marker write succeeds. -/
theorem watch_success_eq (env : Env) (branch sha : String)
    (run : WorkflowRun) (runs : List WorkflowRun)
    (hrepo : env.githubRepo = Except.ok ())
    (hsha : env.branchSha branch = Except.ok sha)
    (hnew : some sha ≠ env.marker.map pyStrip)
    (hruns : env.workflowRuns branch = Except.ok (run :: runs))
    (hconc : run.conclusion = some "success")
    (hw : env.writeMarker = Except.ok ()) :
    watch_github_commit env branch =
      (JValue.obj
        [("status", JValue.str "Build succeeded and commit processed"),
         ("commit", JValue.str sha),
         ("pipeline_result", (full_auto_fix_pipeline env).fst)],
       [Event.branchLookup branch, Event.workflowLookup branch,
        Event.writeMarker sha] ++ (full_auto_fix_pipeline env).snd,
       some sha) := by
  simp [watch_github_commit, hrepo, hsha, hnew, hruns, hconc, hw]

/-- Helper: the trace of `commit_and_push` is always one of the four
truncations of checkout, add, commit, push. -/
theorem commit_and_push_trace (env : Env) :
    (commit_and_push env).snd = [Event.gitCheckout NEW_BRANCH] ∨
    (commit_and_push env).snd = [Event.gitCheckout NEW_BRANCH, Event.gitAdd] ∨
    (commit_and_push env).snd =
      [Event.gitCheckout NEW_BRANCH, Event.gitAdd, Event.gitCommit] ∨
    (commit_and_push env).snd =
      [Event.gitCheckout NEW_BRANCH, Event.gitAdd, Event.gitCommit,
       Event.gitPush NEW_BRANCH] := by
  unfold commit_and_push
  cases env.gitCheckout <;> cases env.gitAdd <;> cases env.gitCommit <;>
    cases env.gitPush <;> simp

/-- Helper: the trace of `raise_pr` is empty (repo access raised) or a
single pull-request creation from `NEW_BRANCH` into `main`. -/
theorem raise_pr_trace (env : Env) :
    (raise_pr env).snd = [] ∨
    (raise_pr env).snd = [Event.createPR NEW_BRANCH "main"] := by
  unfold raise_pr
  cases env.githubRepo with
  | error e => simp
  | ok u => cases env.createPull prTitle prBody NEW_BRANCH "main" <;> simp

/-- C4: `full_auto_fix_pipeline` always returns a mapping with exactly
the four keys `get_sonar_issues`, `apply_fixes`, `commit_push`,
`create_pr`, in execution order, each bound to the result of running
that step on the same world — no step is ever skipped, whatever the
earlier steps returned. -/
theorem C4_pipeline_four_steps (env : Env) :
    (full_auto_fix_pipeline env).fst =
      JValue.obj
        [("get_sonar_issues", (get_sonar_issues env).fst),
         ("apply_fixes", (apply_code_fixes env).fst),
         ("commit_push", (commit_and_push env).fst),
         ("create_pr", (raise_pr env).fst)] ∧
    jKeys (full_auto_fix_pipeline env).fst =
      ["get_sonar_issues", "apply_fixes", "commit_push", "create_pr"] :=
  ⟨rfl, rfl⟩

/-- C5: when the quality server returns more than ten issues,
`get_sonar_issues` reports the full total but lists only the first ten
issues, each projected to exactly the five fields
message, severity, type, component, line. -/
theorem C5_truncation_to_ten (env : Env) (issues : List RawIssue)
    (h : env.sonarResponse = Except.ok issues) (hn : 10 < issues.length) :
    (get_sonar_issues env).fst =
      JValue.obj
        [("status", JValue.str "Issues found"),
         ("total", JValue.num issues.length),
         ("issues", JValue.arr ((issues.take 10).map projectIssue))] ∧
    ((issues.take 10).map projectIssue).length = 10 ∧
    ∀ v ∈ (issues.take 10).map projectIssue,
      jKeys v = ["message", "severity", "type", "component", "line"] := by
  have hne : issues.isEmpty = false := by
    cases issues with
    | nil => simp at hn
    | cons a l => rfl
  refine ⟨?_, ?_, ?_⟩
  · simp [get_sonar_issues, h, hne]
  · simp only [List.length_map, List.length_take]
    omega
  · intro v hv
    rcases List.mem_map.mp hv with ⟨i, hi, rfl⟩
    rfl

/-- Witness for C5 at a concrete world with fifteen issues. -/
theorem C5_witness :
    (get_sonar_issues envIssues15).fst =
      JValue.obj
        [("status", JValue.str "Issues found"),
         ("total", JValue.num issues15.length),
         ("issues", JValue.arr ((issues15.take 10).map projectIssue))] ∧
    ((issues15.take 10).map projectIssue).length = 10 :=
  ⟨(C5_truncation_to_ten envIssues15 issues15 rfl (by decide)).1,
   (C5_truncation_to_ten envIssues15 issues15 rfl (by decide)).2.1⟩

/-- C6: when the quality server returns an empty issue list,
`get_sonar_issues` reports total 0 with an empty issue list and no
error field. -/
theorem C6_zero_issues (env : Env) (h : env.sonarResponse = Except.ok []) :
    (get_sonar_issues env).fst =
      JValue.obj
        [("status", JValue.str "No issues found"),
         ("total", JValue.num 0),
         ("issues", JValue.arr [])] ∧
    hasErrorField (get_sonar_issues env).fst = false := by
  have h1 : (get_sonar_issues env).fst =
      JValue.obj
        [("status", JValue.str "No issues found"),
         ("total", JValue.num 0),
         ("issues", JValue.arr [])] := by
    simp [get_sonar_issues, h]
  exact ⟨h1, by rw [h1]; rfl⟩

/-- Witness for C6 at a concrete world with no issues. -/
theorem C6_witness :
    (get_sonar_issues baseEnv).fst =
      JValue.obj
        [("status", JValue.str "No issues found"),
         ("total", JValue.num 0),
         ("issues", JValue.arr [])] ∧
    hasErrorField (get_sonar_issues baseEnv).fst = false :=
  C6_zero_issues baseEnv rfl

/-- C7: when `black` raises (non-zero exit under `check=True`),
`apply_code_fixes` returns the failure string built from the exception
text and `isort` is never invoked. -/
theorem C7_black_abort (env : Env) (e : String)
    (h : env.blackResult = Except.error e) :
    (apply_code_fixes env).fst =
      JValue.str (" Failed to apply code fixes: " ++ e) ∧
    (apply_code_fixes env).snd = [Event.runBlack] ∧
    Event.runIsort ∉ (apply_code_fixes env).snd := by
  refine ⟨?_, ?_, ?_⟩ <;> simp [apply_code_fixes, h, fixFailMsg]

/-- Witness for C7 at a concrete world where `black` raises `"boom"`. -/
theorem C7_witness :
    (apply_code_fixes envBlackFails).fst =
      JValue.str (" Failed to apply code fixes: " ++ "boom") ∧
    (apply_code_fixes envBlackFails).snd = [Event.runBlack] ∧
    Event.runIsort ∉ (apply_code_fixes envBlackFails).snd :=
  C7_black_abort envBlackFails "boom" rfl

/-- C1 counterexample: in a world where `black` raises `"boom"`,
`apply_code_fixes` catches the exception but returns a plain string, not
a dictionary with an `error` field — refuting the claim that every
operation converts exceptions to a dictionary with an `error` field. -/
theorem C1_counterexample :
    envBlackFails.blackResult = Except.error "boom" ∧
    (apply_code_fixes envBlackFails).fst =
      JValue.str (" Failed to apply code fixes: " ++ "boom") ∧
    hasErrorField (apply_code_fixes envBlackFails).fst = false :=
  ⟨rfl, rfl, rfl⟩

/-- C1 (amended): every operation catches every exception raised in its
body and returns normally; `watch_github_commit`, `get_sonar_issues`
and `raise_pr` return the dictionary `{"error": str(e)}`, while
`apply_code_fixes` and `commit_and_push` return a plain failure string
containing `str(e)`.  One conjunct per raise site, in control-flow
order. -/
theorem C1_exceptions_caught (env : Env) (branch e sha : String)
    (run : WorkflowRun) (runs : List WorkflowRun) :
    (env.githubRepo = Except.error e →
      (watch_github_commit env branch).fst = mkError e) ∧
    (env.githubRepo = Except.ok () → env.branchSha branch = Except.error e →
      (watch_github_commit env branch).fst = mkError e) ∧
    (env.githubRepo = Except.ok () → env.branchSha branch = Except.ok sha →
      some sha ≠ env.marker.map pyStrip →
      env.workflowRuns branch = Except.error e →
      (watch_github_commit env branch).fst = mkError e) ∧
    (env.githubRepo = Except.ok () → env.branchSha branch = Except.ok sha →
      some sha ≠ env.marker.map pyStrip →
      env.workflowRuns branch = Except.ok (run :: runs) →
      run.conclusion = some "success" →
      env.writeMarker = Except.error e →
      (watch_github_commit env branch).fst = mkError e) ∧
    (env.sonarResponse = Except.error e →
      (get_sonar_issues env).fst = mkError e) ∧
    (env.blackResult = Except.error e →
      (apply_code_fixes env).fst = JValue.str (fixFailMsg e)) ∧
    (env.blackResult = Except.ok () → env.isortResult = Except.error e →
      (apply_code_fixes env).fst = JValue.str (fixFailMsg e)) ∧
    (env.gitCheckout = Except.error e →
      (commit_and_push env).fst = JValue.str (gitFailMsg e)) ∧
    (env.gitCheckout = Except.ok () → env.gitAdd = Except.error e →
      (commit_and_push env).fst = JValue.str (gitFailMsg e)) ∧
    (env.gitCheckout = Except.ok () → env.gitAdd = Except.ok () →
      env.gitCommit = Except.error e →
      (commit_and_push env).fst = JValue.str (gitFailMsg e)) ∧
    (env.gitCheckout = Except.ok () → env.gitAdd = Except.ok () →
      env.gitCommit = Except.ok () → env.gitPush = Except.error e →
      (commit_and_push env).fst = JValue.str (gitFailMsg e)) ∧
    (env.githubRepo = Except.error e → (raise_pr env).fst = mkError e) ∧
    (env.githubRepo = Except.ok () →
      env.createPull prTitle prBody NEW_BRANCH "main" = Except.error e →
      (raise_pr env).fst = mkError e) := by
  refine ⟨?_, ?_, ?_, ?_, ?_, ?_, ?_, ?_, ?_, ?_, ?_, ?_, ?_⟩
  · intro h1
    simp [watch_github_commit, h1]
  · intro h1 h2
    simp [watch_github_commit, h1, h2]
  · intro h1 h2 h3 h4
    simp [watch_github_commit, h1, h2, h3, h4]
  · intro h1 h2 h3 h4 h5 h6
    simp [watch_github_commit, h1, h2, h3, h4, h5, h6]
  · intro h1
    simp [get_sonar_issues, h1]
  · intro h1
    simp [apply_code_fixes, h1]
  · intro h1 h2
    simp [apply_code_fixes, h1, h2]
  · intro h1
    simp [commit_and_push, h1]
  · intro h1 h2
    simp [commit_and_push, h1, h2]
  · intro h1 h2 h3
    simp [commit_and_push, h1, h2, h3]
  · intro h1 h2 h3 h4
    simp [commit_and_push, h1, h2, h3, h4]
  · intro h1
    simp [raise_pr, h1]
  · intro h1 h2
    simp [raise_pr, h1, h2]

/-- Witness for C1 (amended) at a concrete world where the GitHub
client raises `"boom"`. -/
theorem C1_witness :
    (watch_github_commit envRepoErr "main").fst = mkError "boom" :=
  (C1_exceptions_caught envRepoErr "main" "boom" "x"
    { conclusion := none } []).1 rfl

/-- C2 counterexample: with the marker equal to the branch head, the
watcher does return a no-new-commit result, but its status string is
`" No new commits"` (leading space), not `"No new commits"`, so the
result claimed is not the returned dictionary. -/
theorem C2_counterexample :
    envMarkerMatch.marker = some "abc123" ∧
    envMarkerMatch.branchSha "main" = Except.ok "abc123" ∧
    (watch_github_commit envMarkerMatch "main").fst ≠
      JValue.obj
        [("status", JValue.str "No new commits"),
         ("latest_commit", JValue.str "abc123")] := by
  refine ⟨rfl, rfl, ?_⟩
  intro h
  rw [show (watch_github_commit envMarkerMatch "main").fst =
        JValue.obj
          [("status", JValue.str " No new commits"),
           ("latest_commit", JValue.str "abc123")] from rfl] at h
  simp at h

/-- C2 (amended): when the marker file exists and its stored (stripped)
hash equals the branch head, the watcher returns exactly
`{"status": " No new commits", "latest_commit": head}` — the status
string carries a leading space — performs no action beyond the branch
lookup, and leaves the marker file unchanged. -/
theorem C2_no_new_commits (env : Env) (branch sha m : String)
    (hrepo : env.githubRepo = Except.ok ())
    (hsha : env.branchSha branch = Except.ok sha)
    (hm : env.marker = some m) (ht : pyStrip m = sha) :
    watch_github_commit env branch =
      (JValue.obj
        [("status", JValue.str noNewCommitsMsg),
         ("latest_commit", JValue.str sha)],
       [Event.branchLookup branch], env.marker) := by
  simp [watch_github_commit, hrepo, hsha, hm, ht]

/-- Witness for C2 (amended) at a concrete world whose marker holds the
branch head. -/
theorem C2_witness :
    watch_github_commit envMarkerMatch "main" =
      (JValue.obj
        [("status", JValue.str noNewCommitsMsg),
         ("latest_commit", JValue.str "abc123")],
       [Event.branchLookup "main"], envMarkerMatch.marker) :=
  C2_no_new_commits envMarkerMatch "main" "abc123" "abc123" rfl rfl rfl rfl

/-- C3: when a new commit is detected but there is no workflow run, or
the latest run's conclusion is not `"success"`, the watcher returns the
no-run-found (respectively failed-or-pending) result, performs no
further action, and leaves the marker file unchanged. -/
theorem C3_build_gate (env : Env) (branch sha : String)
    (hrepo : env.githubRepo = Except.ok ())
    (hsha : env.branchSha branch = Except.ok sha)
    (hnew : some sha ≠ env.marker.map pyStrip) :
    (env.workflowRuns branch = Except.ok [] →
      watch_github_commit env branch =
        (JValue.obj [("status", JValue.str " No recent workflow run found")],
         [Event.branchLookup branch, Event.workflowLookup branch],
         env.marker)) ∧
    (∀ run runs, env.workflowRuns branch = Except.ok (run :: runs) →
      run.conclusion ≠ some "success" →
      watch_github_commit env branch =
        (JValue.obj
          [("status", JValue.str " Build failed or still running"),
           ("build_status", jOptStr run.conclusion)],
         [Event.branchLookup branch, Event.workflowLookup branch],
         env.marker)) := by
  constructor
  · intro h1
    simp [watch_github_commit, hrepo, hsha, hnew, h1]
  · intro run runs h1 h2
    simp [watch_github_commit, hrepo, hsha, hnew, h1, h2]

/-- Witness for C3 at a concrete world whose latest run failed. -/
theorem C3_witness :
    watch_github_commit envBuildFailed "main" =
      (JValue.obj
        [("status", JValue.str " Build failed or still running"),
         ("build_status", jOptStr (some "failure"))],
       [Event.branchLookup "main", Event.workflowLookup "main"],
       envBuildFailed.marker) :=
  (C3_build_gate envBuildFailed "main" "abc123" rfl rfl (by decide)).2
    { conclusion := some "failure" } [] rfl (by decide)

/-- C8: when the marker file is absent, any branch head counts as new:
the watcher never returns the no-new-commit result and always reaches
the workflow (build status) lookup. -/
theorem C8_marker_absent (env : Env) (branch sha : String)
    (hrepo : env.githubRepo = Except.ok ())
    (hsha : env.branchSha branch = Except.ok sha)
    (hm : env.marker = none) :
    (∀ s, (watch_github_commit env branch).fst ≠
        JValue.obj
          [("status", JValue.str noNewCommitsMsg),
           ("latest_commit", JValue.str s)]) ∧
    Event.workflowLookup branch ∈ (watch_github_commit env branch).snd.fst := by
  have hred : watch_github_commit env branch =
      match env.workflowRuns branch with
      | Except.error e =>
        (mkError e, [Event.branchLookup branch, Event.workflowLookup branch],
         env.marker)
      | Except.ok runs =>
        match runs.head? with
        | none =>
          (JValue.obj [("status", JValue.str " No recent workflow run found")],
           [Event.branchLookup branch, Event.workflowLookup branch],
           env.marker)
        | some latest_run =>
          if latest_run.conclusion ≠ some "success" then
            (JValue.obj
              [("status", JValue.str " Build failed or still running"),
               ("build_status", jOptStr latest_run.conclusion)],
             [Event.branchLookup branch, Event.workflowLookup branch],
             env.marker)
          else
            match env.writeMarker with
            | Except.error e =>
              (mkError e,
               [Event.branchLookup branch, Event.workflowLookup branch],
               env.marker)
            | Except.ok _ =>
              let r := full_auto_fix_pipeline env
              (JValue.obj
                [("status",
                  JValue.str "Build succeeded and commit processed"),
                 ("commit", JValue.str sha),
                 ("pipeline_result", r.fst)],
               [Event.branchLookup branch, Event.workflowLookup branch,
                Event.writeMarker sha] ++ r.snd,
               some sha) := by
    simp [watch_github_commit, hrepo, hsha, hm]
  rw [hred]
  cases hw : env.workflowRuns branch with
  | error e => constructor <;> simp [mkError]
  | ok runs =>
    cases runs with
    | nil => constructor <;> simp
    | cons r rs =>
      by_cases hc : r.conclusion = some "success"
      · cases hwm : env.writeMarker with
        | error e2 => constructor <;> simp [hc, hwm, mkError]
        | ok u => constructor <;> simp [hc, hwm]
      · constructor <;> simp [hc]

/-- Witness for C8 at a concrete world with no marker file. -/
theorem C8_witness :
    Event.workflowLookup "main" ∈
      (watch_github_commit baseEnv "main").snd.fst :=
  (C8_marker_absent baseEnv "main" "abc123" rfl rfl rfl).2

/-- C9: on the success path (new commit, successful latest run, marker
write succeeds) the watcher's final marker state equals the new head
SHA, and the write event strictly precedes every pipeline event in the
trace — whatever results the four pipeline steps produce. -/
theorem C9_marker_persisted_first (env : Env) (branch sha : String)
    (run : WorkflowRun) (runs : List WorkflowRun)
    (hrepo : env.githubRepo = Except.ok ())
    (hsha : env.branchSha branch = Except.ok sha)
    (hnew : some sha ≠ env.marker.map pyStrip)
    (hruns : env.workflowRuns branch = Except.ok (run :: runs))
    (hconc : run.conclusion = some "success")
    (hw : env.writeMarker = Except.ok ()) :
    (watch_github_commit env branch).snd.snd = some sha ∧
    (watch_github_commit env branch).snd.fst =
      [Event.branchLookup branch, Event.workflowLookup branch,
       Event.writeMarker sha] ++ (full_auto_fix_pipeline env).snd ∧
    (watch_github_commit env branch).fst =
      JValue.obj
        [("status", JValue.str "Build succeeded and commit processed"),
         ("commit", JValue.str sha),
         ("pipeline_result", (full_auto_fix_pipeline env).fst)] := by
  rw [watch_success_eq env branch sha run runs hrepo hsha hnew hruns hconc hw]
  exact ⟨rfl, rfl, rfl⟩

/-- Witness for C9 at a fully successful concrete world. -/
theorem C9_witness :
    (watch_github_commit baseEnv "main").snd.snd = some "abc123" ∧
    (watch_github_commit baseEnv "main").snd.fst =
      [Event.branchLookup "main", Event.workflowLookup "main",
       Event.writeMarker "abc123"] ++ (full_auto_fix_pipeline baseEnv).snd ∧
    (watch_github_commit baseEnv "main").fst =
      JValue.obj
        [("status", JValue.str "Build succeeded and commit processed"),
         ("commit", JValue.str "abc123"),
         ("pipeline_result", (full_auto_fix_pipeline baseEnv).fst)] :=
  C9_marker_persisted_first baseEnv "main" "abc123"
    { conclusion := some "success" } [] rfl rfl (by decide) rfl rfl rfl

/-- C10: the pipeline result delivered by the watcher is the same
function of the external world whichever branch is watched, and the
publisher always pushes the fixed branch `auto-fix-sonar-issues` and
always opens the pull request from that head into base `main`. -/
theorem C10_branch_independence (env : Env) (b1 b2 sha1 sha2 : String)
    (run1 run2 : WorkflowRun) (runs1 runs2 : List WorkflowRun)
    (hrepo : env.githubRepo = Except.ok ())
    (hsha1 : env.branchSha b1 = Except.ok sha1)
    (hnew1 : some sha1 ≠ env.marker.map pyStrip)
    (hruns1 : env.workflowRuns b1 = Except.ok (run1 :: runs1))
    (hconc1 : run1.conclusion = some "success")
    (hsha2 : env.branchSha b2 = Except.ok sha2)
    (hnew2 : some sha2 ≠ env.marker.map pyStrip)
    (hruns2 : env.workflowRuns b2 = Except.ok (run2 :: runs2))
    (hconc2 : run2.conclusion = some "success")
    (hw : env.writeMarker = Except.ok ()) :
    getField (watch_github_commit env b1).fst "pipeline_result" =
      some (full_auto_fix_pipeline env).fst ∧
    getField (watch_github_commit env b2).fst "pipeline_result" =
      some (full_auto_fix_pipeline env).fst ∧
    (∀ b, Event.gitPush b ∈ (commit_and_push env).snd → b = NEW_BRANCH) ∧
    (∀ hd base, Event.createPR hd base ∈ (raise_pr env).snd →
      hd = NEW_BRANCH ∧ base = "main") := by
  refine ⟨?_, ?_, ?_, ?_⟩
  · rw [watch_success_eq env b1 sha1 run1 runs1 hrepo hsha1 hnew1 hruns1
      hconc1 hw]
    simp [getField]
  · rw [watch_success_eq env b2 sha2 run2 runs2 hrepo hsha2 hnew2 hruns2
      hconc2 hw]
    simp [getField]
  · intro b hb
    rcases commit_and_push_trace env with h | h | h | h <;> rw [h] at hb <;>
      simp at hb
    exact hb
  · intro hd base hb
    rcases raise_pr_trace env with h | h <;> rw [h] at hb <;> simp at hb
    exact hb

/-- Witness for C10: at a fully successful concrete world, watching
`main` and watching `dev` deliver the same pipeline result. -/
theorem C10_witness :
    getField (watch_github_commit baseEnv "main").fst "pipeline_result" =
      some (full_auto_fix_pipeline baseEnv).fst ∧
    getField (watch_github_commit baseEnv "dev").fst "pipeline_result" =
      some (full_auto_fix_pipeline baseEnv).fst :=
  ⟨(C10_branch_independence baseEnv "main" "dev" "abc123" "abc123"
      { conclusion := some "success" } { conclusion := some "success" } [] []
      rfl rfl (by decide) rfl rfl rfl (by decide) rfl rfl rfl).1,
   (C10_branch_independence baseEnv "main" "dev" "abc123" "abc123"
      { conclusion := some "success" } { conclusion := some "success" } [] []
      rfl rfl (by decide) rfl rfl rfl (by decide) rfl rfl rfl).2.1⟩

end SonarGitMcp
